import Mathlib

/-!
Verification of the Terraform pipeline validator (`validator_version_4.py`).

The Python source is shallowly embedded below.  External effects
(subprocess spawns, HTTP HEAD probes, filesystem existence checks, file
parsing) are supplied by an `Env` of oracles, and every effectful function
additionally returns a `Trace` recording which external calls it made, in
order.  Python exceptions are modelled with `Except String`.
-/
/-- Outcome of `subprocess.run` for one argv, as observed by the caller:
either the process completed with a return code and captured streams, or
spawning failed in one of the ways the source distinguishes
(`FileNotFoundError`, `subprocess.CalledProcessError`, any other
exception). -/
inductive SubprocessOutcome where
  | completed (returncode : Int) (stdout stderr : String)
  | fileNotFound (msg : String)
  | calledProcessError (msg : String)
  | error (msg : String)
deriving DecidableEq

/-- Outcome of a `requests.head(url, allow_redirects=True, timeout=5)`
probe: a status code, or any `requests.RequestException` (DNS failure,
refused connection, timeout, TLS error, ...). -/
inductive ProbeResult where
  | status (code : Nat)
  | transportError (msg : String)
deriving DecidableEq

/-- A value inside parsed HCL data: scalars, sequences and mappings, as in
the ParsedConfig interface the validator consumes. -/
inductive Value where
  | str (s : String)
  | num (n : Int)
  | bool (b : Bool)
  | null
  | seq (vs : List Value)
  | map (kvs : List (String × Value))

/-- A parsed configuration file: the top-level mapping from block type
(for example "module") to its contents, in insertion order. -/
def ParsedConfig := List (String × Value)

/-- Python truthiness (`if source:`) for a `Value`. -/
def pyTruthy : Value → Bool
  | .str s => s ≠ ""
  | .num n => n ≠ 0
  | .bool b => b
  | .null => false
  | .seq vs => !vs.isEmpty
  | .map kvs => !kvs.isEmpty

/-- One directory entry as seen by `os.listdir` / `os.walk`: a plain file
or a subdirectory with its own entries, in listing order. -/
inductive Entry where
  | file (name : String)
  | dir (name : String) (entries : List Entry)

/-- The name of a directory entry (what `os.listdir` reports). -/
def Entry.name : Entry → String
  | .file n => n
  | .dir n _ => n

/-- The external world: oracles for the four kinds of side effect the
validator performs.  Fixing an `Env` fixes every external response. -/
structure Env where
  subprocess : List String → SubprocessOutcome
  probe : String → ProbeResult
  pathExists : String → Bool
  parseFile : String → Except String ParsedConfig

/-- Trace of the external calls a computation performed, in order:
argvs passed to `subprocess.run`, URLs probed with `requests.head`, and
paths tested with `os.path.exists`. -/
structure Trace where
  procs : List (List String)
  probes : List String
  pathChecks : List String
deriving DecidableEq

/-- The empty trace: no external calls. -/
def Trace.empty : Trace := ⟨[], [], []⟩

instance : Append Trace :=
  ⟨fun a b => ⟨a.procs ++ b.procs, a.probes ++ b.probes, a.pathChecks ++ b.pathChecks⟩⟩

/-- The `@dataclass ValidationResult`: the per-file report. -/
structure ValidationResult where
  file_path : String
  issues : List String
  is_valid : Bool
deriving DecidableEq

/-! ## `urllib.parse.urlparse` — scheme extraction

Only the `scheme` component matters to the validator.  CPython first
strips leading C0-control/space characters, removes every tab, carriage
return and newline, and then takes `url[:i]` (lowercased) as the scheme
when `i` is the index of the first colon, `i > 0`, the first character is
an ASCII letter, and the remaining characters before the colon are ASCII
letters, digits, or one of `+`, `-`, `.`. -/
/-- Characters allowed after the first character of a URL scheme. -/
def schemeChar (c : Char) : Bool :=
  c.isAlpha || c.isDigit || c = '+' || c = '-' || c = '.'

/-- CPython url sanitisation before splitting: strip leading
C0-control-or-space characters, drop every tab, CR and LF. -/
def sanitizeUrl (s : String) : List Char :=
  (s.data.dropWhile (fun c => c.toNat ≤ 32)).filter
    (fun c => !(c = '\t' || c = '\r' || c = '\n'))

/-- The `scheme` component of `urlparse`, lowercased; `""` when the input
has no well-formed scheme prefix. -/
def urlscheme (url : String) : String :=
  let u := sanitizeUrl url
  match u.findIdx? (fun c => c = ':') with
  | none => ""
  | some i =>
    match u.take i with
    | [] => ""
    | c :: rest =>
      if c.isAlpha && rest.all schemeChar then
        String.mk ((c :: rest).map Char.toLower)
      else ""

/-- Python `str.endswith`: suffix test on the character sequences. -/
def pyEndsWith (s suffix : String) : Bool := suffix.data.isSuffixOf s.data

/-- Python `str.startswith`: prefix test on the character sequences. -/
def pyStartsWith (s pre : String) : Bool := pre.data.isPrefixOf s.data

/-- Model of `os.path.join(a, b)` for two POSIX path components, as the source uses
it: an absolute `b` replaces `a`; otherwise a single separator is inserted
unless `a` is empty or already ends with one. -/
def joinPath (a b : String) : String :=
  if pyStartsWith b "/" then b
  else if a = "" || pyEndsWith a "/" then a ++ b
  else a ++ "/" ++ b

/-! ## Python `str()` rendering of a list of strings

`validate_file` interpolates the list returned by `check_module_sources`
into an f-string, which renders it as `[repr, repr, ...]`. -/
/-- Escaping of one character inside a Python string repr with the given
delimiter: backslash, the delimiter, and the common control characters. -/
def escChar (delim : Char) (c : Char) : List Char :=
  if c = '\\' then ['\\', '\\']
  else if c = delim then ['\\', delim]
  else if c = '\n' then ['\\', 'n']
  else if c = '\r' then ['\\', 'r']
  else if c = '\t' then ['\\', 't']
  else [c]

/-- Python `repr` of a string: single-quote delimited, unless the string
contains a single quote and no double quote. -/
def pyStrRepr (s : String) : String :=
  let delim := if s.data.contains '\'' && !(s.data.contains '"') then '"' else '\''
  String.mk (delim :: s.data.flatMap (escChar delim) ++ [delim])

/-- The comma-separated interior of Python `str` applied to a list. -/
def pyListStrAux : List String → String
  | [] => ""
  | [x] => pyStrRepr x
  | x :: y :: rest => pyStrRepr x ++ ", " ++ pyListStrAux (y :: rest)

/-- Python `str` of a list of strings: `[` reprs `]`. -/
def pyListStr (l : List String) : String := "[" ++ pyListStrAux l ++ "]"

/-! ## External Tool Runner

`run_terraform_fmt` / `run_terraform_init` / `run_terraform_validate` /
`run_terraform_plan`: run the subprocess, return `returncode == 0`, and
map `CalledProcessError`, `FileNotFoundError` and any other exception to
`false`.  Each records the one argv it spawned. -/
def run_terraform_fmt (env : Env) (directory : String) : Bool × Trace :=
  let args := ["terraform", "fmt", "-check", directory]
  match env.subprocess args with
  | .completed returncode _ _ => (returncode == 0, ⟨[args], [], []⟩)
  | .calledProcessError _ => (false, ⟨[args], [], []⟩)
  | .fileNotFound _ => (false, ⟨[args], [], []⟩)
  | .error _ => (false, ⟨[args], [], []⟩)

def run_terraform_init (env : Env) (directory : String) : Bool × Trace :=
  let args := ["terraform", "init", directory]
  match env.subprocess args with
  | .completed returncode _ _ => (returncode == 0, ⟨[args], [], []⟩)
  | .calledProcessError _ => (false, ⟨[args], [], []⟩)
  | .fileNotFound _ => (false, ⟨[args], [], []⟩)
  | .error _ => (false, ⟨[args], [], []⟩)

def run_terraform_plan (env : Env) (directory : String) : Bool × Trace :=
  let args := ["terraform", "plan", directory]
  match env.subprocess args with
  | .completed returncode _ _ => (returncode == 0, ⟨[args], [], []⟩)
  | .calledProcessError _ => (false, ⟨[args], [], []⟩)
  | .fileNotFound _ => (false, ⟨[args], [], []⟩)
  | .error _ => (false, ⟨[args], [], []⟩)

def run_terraform_validate (env : Env) (directory : String) : Bool × Trace :=
  let args := ["terraform", "validate", directory]
  match env.subprocess args with
  | .completed returncode _ _ => (returncode == 0, ⟨[args], [], []⟩)
  | .calledProcessError _ => (false, ⟨[args], [], []⟩)
  | .fileNotFound _ => (false, ⟨[args], [], []⟩)
  | .error _ => (false, ⟨[args], [], []⟩)

/-! ## Module Source Checker (`check_module_sources`) -/
/-- The loop body of `check_module_sources` for one
`(module_name, config)` pair: read `source` (a `.get`, raising on a
non-mapping config), skip falsy sources, classify the scheme, probe remote
sources, test local paths on the filesystem. -/
def processModule (env : Env) (directory : String) (module_name : String)
    (config : Value) : Except String (List String) × Trace :=
  match config with
  | .map attrs =>
    match List.lookup "source" attrs with
    | none => (.ok [], Trace.empty)
    | some v =>
      if pyTruthy v then
        match v with
        | .str source =>
          let scheme := urlscheme source
          if scheme = "http" || scheme = "https" then
            match env.probe source with
            | .status code =>
              if 400 ≤ code then
                (.ok ["Module " ++ module_name ++ ": Unreachable source URL " ++ source],
                 ⟨[], [source], []⟩)
              else (.ok [], ⟨[], [source], []⟩)
            | .transportError _ =>
              (.ok ["Module " ++ module_name ++ ": Unreachable source URL " ++ source],
               ⟨[], [source], []⟩)
          else if scheme = "" then
            let local_path := joinPath directory source
            if env.pathExists local_path then (.ok [], ⟨[], [], [local_path]⟩)
            else
              (.ok ["Module " ++ module_name ++ ": Local source path does not exist " ++ source],
               ⟨[], [], [local_path]⟩)
          else (.ok [], Trace.empty)
        | _ => (.error "TypeError: expected str, bytes or bytearray", Trace.empty)
      else (.ok [], Trace.empty)
  | _ => (.error "AttributeError: config has no attribute get", Trace.empty)

/-- The `for module_name, config in modules.items()` loop of
`check_module_sources`, accumulating `invalid_sources`; an exception in
one iteration aborts the loop, keeping the trace up to that point. -/
def checkModulesLoop (env : Env) (directory : String) :
    List (String × Value) → Except String (List String) × Trace
  | [] => (.ok [], Trace.empty)
  | (module_name, config) :: rest =>
    match processModule env directory module_name config with
    | (.error e, t) => (.error e, t)
    | (.ok here, t) =>
      match checkModulesLoop env directory rest with
      | (.error e, t2) => (.error e, t ++ t2)
      | (.ok more, t2) => (.ok (here ++ more), t ++ t2)

/-- The checker `check_module_sources`: take the module section with a defaulted lookup, then iterate
its items (raising when the value is not a mapping). -/
def check_module_sources (env : Env) (directory : String) (parser_data : ParsedConfig) :
    Except String (List String) × Trace :=
  let modules := (List.lookup "module" parser_data).getD (.map [])
  match modules with
  | .map items => checkModulesLoop env directory items
  | _ => (.error "AttributeError: modules has no attribute items", Trace.empty)

/-! ## URL Extractor and URL reachability -/
/-- The extractor `extract_urls`: in the source this is a stub — the comment block says
the traversal logic is still to be implemented and the function returns
the empty list for every input. -/
def extract_urls (_parser_data : ParsedConfig) : List String := []

/-- The `for url in urls` loop of `check_url_reachability`: probe each
URL, collecting those with status ≥ 400 or a transport error. -/
def checkUrlsLoop (env : Env) : List String → List String × Trace
  | [] => ([], Trace.empty)
  | url :: rest =>
    let here : List String :=
      match env.probe url with
      | .status code => if 400 ≤ code then [url] else []
      | .transportError _ => [url]
    let (more, t) := checkUrlsLoop env rest
    (here ++ more, (⟨[], [url], []⟩ : Trace) ++ t)

/-- The checker `check_url_reachability`: probe every URL `extract_urls` found. -/
def check_url_reachability (env : Env) (parser_data : ParsedConfig) :
    List String × Trace :=
  checkUrlsLoop env (extract_urls parser_data)

/-! ## Parser adapter and File Validator -/
/-- The adapter `parse_terraform_file`: delegate to the parser; on failure the
exception is logged and re-raised unchanged. -/
def parse_terraform_file (env : Env) (file_path : String) :
    Except String ParsedConfig :=
  env.parseFile file_path

/-- The orchestrator `validate_file`: parse, collect module-source and URL issues (each
nonempty collection is rendered into one aggregate issue string), and
build the `ValidationResult`; any exception is caught and becomes a
single-issue invalid result. -/
def validate_file (env : Env) (directory : String) (file_path : String) :
    ValidationResult × Trace :=
  match parse_terraform_file env file_path with
  | .error e =>
    ({ file_path := file_path, issues := ["Error during validation: " ++ e],
       is_valid := false }, Trace.empty)
  | .ok parser_data =>
    match check_module_sources env directory parser_data with
    | (.error e, t) =>
      ({ file_path := file_path, issues := ["Error during validation: " ++ e],
         is_valid := false }, t)
    | (.ok invalid_sources, t) =>
      let issues₁ : List String :=
        if invalid_sources.isEmpty then []
        else ["Invalid or unreachable module sources found: " ++ pyListStr invalid_sources]
      let (unreachable_urls, t2) := check_url_reachability env parser_data
      let issues : List String :=
        issues₁ ++
          (if unreachable_urls.isEmpty then []
           else ["Unreachable URLs found: " ++ pyListStr unreachable_urls])
      ({ file_path := file_path, issues := issues, is_valid := issues.length == 0 },
       t ++ t2)

/-! ## Directory Validator -/
/-- The `.tf` files of one `os.walk` triple: the file entries of a single
directory whose names end in `.tf`, joined onto the root path, in listing
order. -/
def tfFilesAt (root : String) (es : List Entry) : List String :=
  es.filterMap fun e =>
    match e with
    | .file n => if pyEndsWith n ".tf" then some (joinPath root n) else none
    | .dir _ _ => none

/-- Depth-first traversal of the subdirectories of one level, yielding
the `.tf` file paths `os.walk` discovers below it, in walk order. -/
def walkTfDirs (root : String) : List Entry → List String
  | [] => []
  | .file _ :: rest => walkTfDirs root rest
  | .dir n sub :: rest =>
    (tfFilesAt (joinPath root n) sub ++ walkTfDirs (joinPath root n) sub)
      ++ walkTfDirs root rest

/-- All `.tf` file paths `os.walk` discovers under `root`, in discovery
order: the root level's files first, then each subdirectory depth-first. -/
def walkTf (root : String) (es : List Entry) : List String :=
  tfFilesAt root es ++ walkTfDirs root es

/-- The orchestrator `validate_directory`: gate on `os.listdir` names ending in `.tf`;
when nonempty, run the four terraform subcommands, then validate every
`.tf` file found by `os.walk`, appending the results in order. -/
def validate_directory (env : Env) (directory : String) (entries : List Entry) :
    List ValidationResult × Trace :=
  let tf_files := (entries.map Entry.name).filter (fun f => pyEndsWith f ".tf")
  if tf_files.isEmpty then ([], Trace.empty)
  else
    let (_, t1) := run_terraform_fmt env directory
    let (_, t2) := run_terraform_init env directory
    let (_, t3) := run_terraform_validate env directory
    let (_, t4) := run_terraform_plan env directory
    let step := fun (acc : List ValidationResult × Trace) (p : String) =>
      let (r, t) := validate_file env directory p
      (acc.1 ++ [r], acc.2 ++ t)
    let folded := (walkTf directory entries).foldl step ([], Trace.empty)
    (folded.1, t1 ++ t2 ++ t3 ++ t4 ++ folded.2)

/-! ## Helper lemmas about the embedding -/
/-- Sequencing of two module-loop results: an error on the left wins, an
error on the right keeps the left trace, otherwise issues and traces
concatenate. -/
def seqIssues (a b : Except String (List String) × Trace) :
    Except String (List String) × Trace :=
  match a with
  | (.error e, t) => (.error e, t)
  | (.ok is, t) =>
    match b with
    | (.error e, t2) => (.error e, t ++ t2)
    | (.ok is2, t2) => (.ok (is ++ is2), t ++ t2)

/-! ## Plain strings and substring occurrence -/
/-- A character that Python string repr renders verbatim (not a backslash,
quote, newline, carriage return or tab). -/
def plainChar (c : Char) : Bool :=
  !(c = '\\' || c = '\'' || c = '"' || c = '\n' || c = '\r' || c = '\t')

/-- A string every character of which is rendered verbatim by repr. -/
def plainStr (s : String) : Bool := s.data.all plainChar

/-- The string `needle` occurs as a contiguous substring of `hay`. -/
def mentions (needle hay : String) : Prop := needle.data <:+: hay.data

instance (needle hay : String) : Decidable (mentions needle hay) := by
  unfold mentions; infer_instance

/-- The subprocess completed with exit status 0. -/
def SubprocessOutcome.succeeded : SubprocessOutcome → Prop
  | .completed returncode _ _ => returncode = 0
  | .fileNotFound _ => False
  | .calledProcessError _ => False
  | .error _ => False

/-- The names of the plain files directly under the target directory
whose name ends in `.tf` (the set the claim about the empty-directory
gate quantifies over). -/
def directTfFileNames (entries : List Entry) : List String :=
  (entries.filterMap fun e =>
    match e with
    | .file n => some n
    | .dir _ _ => none).filter (fun n => pyEndsWith n ".tf")

/-- A fully successful environment: every subprocess exits 0, every probe
answers 200, every path exists, every file parses to an empty mapping. -/
def envA : Env :=
  { subprocess := fun _ => .completed 0 "" ""
    probe := fun _ => .status 200
    pathExists := fun _ => true
    parseFile := fun _ => .ok [] }

/-- The probe outcomes the source treats as failures: a status code of at
least 400, or any transport error. -/
def probeFailed : ProbeResult → Prop
  | .status code => 400 ≤ code
  | .transportError _ => True

/-- Environment for the C2 witness: a module with an `https` source whose
probe answers 404. -/
def envC2 : Env :=
  { subprocess := fun _ => .completed 0 "" ""
    probe := fun _ => .status 404
    pathExists := fun _ => true
    parseFile := fun _ => .ok
      [("module", Value.map
        [("web", Value.map [("source", Value.str "https://example.invalid/mod")])])] }

/-- A string that looks like a URL, per the concrete rule the spec
suggests for the extractor (a URL-scheme prefix). -/
def urlShaped (s : String) : Bool :=
  pyStartsWith s "http://" || pyStartsWith s "https://"

mutual
/-- Modelled from the spec: the URL Extractor contract of §4.4 — absent
from the source, whose `extract_urls` body is a stub — as a recursive
walk over mappings, sequences and scalars collecting every URL-shaped
string at arbitrary nesting depth. -/
def specCollectUrls : Value → List String
  | .str s => if urlShaped s then [s] else []
  | .num _ => []
  | .bool _ => []
  | .null => []
  | .seq vs => specCollectUrlsSeq vs
  | .map kvs => specCollectUrlsMap kvs
/-- The walk of `specCollectUrls` over a sequence value. -/
def specCollectUrlsSeq : List Value → List String
  | [] => []
  | v :: rest => specCollectUrls v ++ specCollectUrlsSeq rest
/-- The walk of `specCollectUrls` over a mapping value. -/
def specCollectUrlsMap : List (String × Value) → List String
  | [] => []
  | (_, v) :: rest => specCollectUrls v ++ specCollectUrlsMap rest
end

/-- Modelled from the spec: the URL Extractor applied to a whole
ParsedConfig (its top-level mapping). -/
def specExtractUrls (parser_data : ParsedConfig) : List String :=
  specCollectUrlsMap parser_data

theorem Trace.append_def (a b : Trace) :
    a ++ b = ⟨a.procs ++ b.procs, a.probes ++ b.probes, a.pathChecks ++ b.pathChecks⟩ := rfl

theorem Trace.append_empty (a : Trace) : a ++ Trace.empty = a := by
  cases a; simp [Trace.append_def, Trace.empty]

theorem Trace.empty_append (a : Trace) : Trace.empty ++ a = a := by
  cases a; simp [Trace.append_def, Trace.empty]

theorem Trace.append_assoc (a b c : Trace) : a ++ b ++ c = a ++ (b ++ c) := by
  cases a; cases b; cases c; simp [Trace.append_def]

theorem checkModulesLoop_append (env : Env) (directory : String)
    (xs ys : List (String × Value)) :
    checkModulesLoop env directory (xs ++ ys) =
      seqIssues (checkModulesLoop env directory xs) (checkModulesLoop env directory ys) := by
  induction xs with
  | nil =>
    simp only [List.nil_append, checkModulesLoop, seqIssues]
    rcases h : checkModulesLoop env directory ys with ⟨e | is, t⟩ <;>
      simp [Trace.empty_append]
  | cons hd tl ih =>
    obtain ⟨module_name, config⟩ := hd
    simp only [List.cons_append, checkModulesLoop, List.append_eq]
    rcases hp : processModule env directory module_name config with ⟨e | here, t⟩
    · simp [seqIssues]
    · rw [ih]
      rcases h1 : checkModulesLoop env directory tl with ⟨e1 | is1, t1⟩ <;>
        rcases h2 : checkModulesLoop env directory ys with ⟨e2 | is2, t2⟩ <;>
          simp [seqIssues, Trace.append_assoc]

theorem checkModulesLoop_singleton (env : Env) (directory : String)
    (module_name : String) (config : Value) :
    checkModulesLoop env directory [(module_name, config)] =
      processModule env directory module_name config := by
  simp only [checkModulesLoop]
  rcases hp : processModule env directory module_name config with ⟨e | here, t⟩ <;>
    simp [Trace.append_empty]

theorem seqIssues_ok_empty_left (b : Except String (List String) × Trace) :
    seqIssues (.ok [], Trace.empty) b = b := by
  rcases b with ⟨e | is, t⟩ <;> simp [seqIssues, Trace.empty_append]

/-- The per-file fold of `validate_directory` produces exactly the map of
`validate_file` over the walked paths (results component). -/
theorem foldl_step_fst (env : Env) (directory : String) (paths : List String)
    (acc : List ValidationResult × Trace) :
    (paths.foldl
      (fun (acc : List ValidationResult × Trace) (p : String) =>
        let (r, t) := validate_file env directory p
        (acc.1 ++ [r], acc.2 ++ t))
      acc).1 =
      acc.1 ++ paths.map (fun p => (validate_file env directory p).1) := by
  induction paths generalizing acc with
  | nil => simp
  | cons hd tl ih =>
    simp only [List.foldl_cons, List.map_cons]
    rw [ih]
    rcases hv : validate_file env directory hd with ⟨r, t⟩
    simp [hv]

theorem escChar_plain {c : Char} (h : plainChar c = true) : escChar '\'' c = [c] := by
  unfold plainChar at h
  unfold escChar
  split_ifs with h1 h2 h3 h4 h5 <;> simp_all

theorem flatMap_escChar_plain {l : List Char} (h : l.all plainChar = true) :
    l.flatMap (escChar '\'') = l := by
  induction l with
  | nil => rfl
  | cons c cs ih =>
    simp only [List.all_cons, Bool.and_eq_true] at h
    simp [List.flatMap_cons, escChar_plain h.1, ih h.2]

theorem pyStrRepr_plain {s : String} (h : plainStr s = true) :
    pyStrRepr s = String.mk ('\'' :: s.data ++ ['\'']) := by
  have hq : s.data.contains '\'' = false := by
    by_contra hc
    rw [Bool.not_eq_false, List.contains_eq_any_beq, List.any_eq_true] at hc
    obtain ⟨c, hmem, hbeq⟩ := hc
    have := List.all_eq_true.mp h c hmem
    rw [beq_iff_eq] at hbeq
    subst hbeq
    simp [plainChar] at this
  unfold pyStrRepr
  rw [hq]
  simp only [Bool.false_and, Bool.false_eq_true, if_false]
  rw [flatMap_escChar_plain h]

theorem data_infix_pyStrRepr {s : String} (h : plainStr s = true) :
    s.data <:+: (pyStrRepr s).data := by
  rw [pyStrRepr_plain h]
  exact ⟨['\''], ['\''], by simp⟩

theorem data_infix_pyListStrAux {t : String} {l : List String}
    (hmem : t ∈ l) (h : plainStr t = true) :
    t.data <:+: (pyListStrAux l).data := by
  induction l with
  | nil => cases hmem
  | cons x rest ih =>
    rcases List.mem_cons.mp hmem with rfl | hmem'
    · cases rest with
      | nil => exact data_infix_pyStrRepr h
      | cons y ys =>
        show t.data <:+: (pyStrRepr t ++ ", " ++ pyListStrAux (y :: ys)).data
        rw [String.data_append, String.data_append]
        exact ((data_infix_pyStrRepr h).trans
          (List.prefix_append _ _).isInfix).trans (List.prefix_append _ _).isInfix
    · cases rest with
      | nil => cases hmem'
      | cons y ys =>
        show t.data <:+: (pyStrRepr x ++ ", " ++ pyListStrAux (y :: ys)).data
        rw [String.data_append]
        exact (ih hmem').trans (List.suffix_append _ _).isInfix

theorem mentions_pyListStr {t : String} {l : List String} (front : String)
    (hmem : t ∈ l) (h : plainStr t = true) :
    mentions t (front ++ pyListStr l) := by
  unfold mentions pyListStr
  obtain ⟨u, v, huv⟩ := data_infix_pyListStrAux hmem h
  refine ⟨front.data ++ "[".data ++ u, v ++ "]".data, ?_⟩
  rw [String.data_append, String.data_append, String.data_append, ← huv]
  simp [List.append_assoc]

/-! ## Claims -/
/-- C1: for every `ValidationResult` constructed by `validate_file` —
on the parse-success path and on the exception path alike — `is_valid`
is `true` exactly when `issues` is empty. -/
theorem c1_is_valid_iff_issues_empty (env : Env) (directory file_path : String) :
    (validate_file env directory file_path).1.is_valid = true ↔
      (validate_file env directory file_path).1.issues = [] := by
  unfold validate_file
  rcases hp : parse_terraform_file env file_path with e | parser_data
  · simp
  · rcases hc : check_module_sources env directory parser_data with ⟨e | invalid_sources, t⟩
    · simp [hc]
    · simp only [hc, check_url_reachability, extract_urls, checkUrlsLoop]
      by_cases hi : invalid_sources = [] <;>
        simp [hi, List.length_eq_zero]

/-- C6: each of the four external-tool operations returns `true` exactly
when the spawned subprocess exits with status 0; a missing binary, a
non-zero exit status, and any other spawn failure all yield `false`, and
the operations are total (no exception reaches the caller). -/
theorem c6_tool_runner_boolean (env : Env) (directory : String) :
    ((run_terraform_fmt env directory).1 = true ↔
        (env.subprocess ["terraform", "fmt", "-check", directory]).succeeded)
    ∧ ((run_terraform_init env directory).1 = true ↔
        (env.subprocess ["terraform", "init", directory]).succeeded)
    ∧ ((run_terraform_validate env directory).1 = true ↔
        (env.subprocess ["terraform", "validate", directory]).succeeded)
    ∧ ((run_terraform_plan env directory).1 = true ↔
        (env.subprocess ["terraform", "plan", directory]).succeeded) := by
  refine ⟨?_, ?_, ?_, ?_⟩
  · unfold run_terraform_fmt
    rcases h : env.subprocess ["terraform", "fmt", "-check", directory] with
      ⟨rc, out, err⟩ | m | m | m <;> simp [h, SubprocessOutcome.succeeded]
  · unfold run_terraform_init
    rcases h : env.subprocess ["terraform", "init", directory] with
      ⟨rc, out, err⟩ | m | m | m <;> simp [h, SubprocessOutcome.succeeded]
  · unfold run_terraform_validate
    rcases h : env.subprocess ["terraform", "validate", directory] with
      ⟨rc, out, err⟩ | m | m | m <;> simp [h, SubprocessOutcome.succeeded]
  · unfold run_terraform_plan
    rcases h : env.subprocess ["terraform", "plan", directory] with
      ⟨rc, out, err⟩ | m | m | m <;> simp [h, SubprocessOutcome.succeeded]

/-- C4: a file whose parsing raises yields a `ValidationResult` with
exactly one issue describing the error and `is_valid = false`; the
failure is caught inside `validate_file` (which returns normally), so the
rest of the batch proceeds. -/
theorem c4_parse_error_single_issue (env : Env) (directory file_path e : String)
    (h : env.parseFile file_path = .error e) :
    (validate_file env directory file_path).1 =
      { file_path := file_path, issues := ["Error during validation: " ++ e],
        is_valid := false }
    ∧ (validate_file env directory file_path).1.issues.length = 1 := by
  unfold validate_file parse_terraform_file
  simp [h]

/-- Witness for C4 at a concrete failing parse. -/
theorem c4_witness :
    (validate_file
        { envA with parseFile := fun _ => .error "invalid syntax" }
        "/proj" "/proj/main.tf").1 =
      { file_path := "/proj/main.tf",
        issues := ["Error during validation: invalid syntax"], is_valid := false }
    ∧ (validate_file
        { envA with parseFile := fun _ => .error "invalid syntax" }
        "/proj" "/proj/main.tf").1.issues.length = 1 :=
  c4_parse_error_single_issue _ "/proj" "/proj/main.tf" "invalid syntax" rfl

/-- C9: `validate_file` is deterministic in its external inputs — two
runs against environments whose filesystem, network, subprocess and
parser oracles agree pointwise produce identical results (content, issue
ordering and trace). -/
theorem c9_deterministic (env₁ env₂ : Env) (directory file_path : String)
    (hs : env₁.subprocess = env₂.subprocess) (hp : env₁.probe = env₂.probe)
    (he : env₁.pathExists = env₂.pathExists) (hf : env₁.parseFile = env₂.parseFile) :
    validate_file env₁ directory file_path = validate_file env₂ directory file_path := by
  cases env₁
  cases env₂
  cases hs
  cases hp
  cases he
  cases hf
  rfl

/-- Witness for C9: the two runs coincide on a concrete input. -/
theorem c9_witness :
    validate_file envA "/proj" "/proj/main.tf" = validate_file envA "/proj" "/proj/main.tf" :=
  c9_deterministic envA envA "/proj" "/proj/main.tf" rfl rfl rfl rfl

/-- C3 (amended): when no directory entry directly under the target
directory — file or subdirectory — has a name ending in `.tf`,
`validate_directory` returns an empty result sequence, spawns no
subprocess and issues no probe (even if subdirectories contain `.tf`
files). -/
theorem c3_no_direct_tf_entries_empty (env : Env) (directory : String)
    (entries : List Entry)
    (h : (entries.map Entry.name).filter (fun f => pyEndsWith f ".tf") = []) :
    validate_directory env directory entries = ([], Trace.empty) := by
  unfold validate_directory
  simp [h]

/-- Witness for C3 (amended): a directory holding only `README.md` and a
subdirectory `modules` that itself contains a `.tf` file. -/
theorem c3_witness :
    validate_directory envA "/proj"
        [Entry.file "README.md", Entry.dir "modules" [Entry.file "vpc.tf"]] =
      ([], Trace.empty) :=
  c3_no_direct_tf_entries_empty envA "/proj"
    [Entry.file "README.md", Entry.dir "modules" [Entry.file "vpc.tf"]] (by decide)

/-- Counterexample for C3 as stated: a directory whose only direct entry
is a subdirectory named `modules.tf` contains no *file* directly under it
ending in `.tf`, yet `validate_directory` spawns the four subcommands and
returns a nonempty result sequence (for the `.tf` file inside the
subdirectory). -/
theorem c3_counterexample :
    directTfFileNames [Entry.dir "modules.tf" [Entry.file "main.tf"]] = []
    ∧ (validate_directory envA "/proj" [Entry.dir "modules.tf" [Entry.file "main.tf"]]).1 ≠ []
    ∧ (validate_directory envA "/proj" [Entry.dir "modules.tf" [Entry.file "main.tf"]]).2.procs ≠ [] := by
  refine ⟨by decide, ?_, ?_⟩ <;>
    simp only [validate_directory, walkTf, walkTfDirs, tfFilesAt] <;>
      decide

/-- C7: when at least one `.tf` file sits directly under the target
directory, `validate_directory` returns exactly one `ValidationResult`
per `.tf` file found by the recursive walk (subdirectories included), in
discovery order, running to completion regardless of per-file outcomes. -/
theorem c7_one_result_per_walked_file (env : Env) (directory : String)
    (entries : List Entry)
    (h : ∃ n, Entry.file n ∈ entries ∧ pyEndsWith n ".tf" = true) :
    (validate_directory env directory entries).1 =
      (walkTf directory entries).map (fun p => (validate_file env directory p).1) := by
  obtain ⟨n, hmem, hend⟩ := h
  have hmemf : n ∈ (entries.map Entry.name).filter (fun f => pyEndsWith f ".tf") :=
    List.mem_filter.mpr ⟨List.mem_map.mpr ⟨.file n, hmem, rfl⟩, hend⟩
  have hne : ((entries.map Entry.name).filter (fun f => pyEndsWith f ".tf")).isEmpty = false := by
    rcases hfe : (entries.map Entry.name).filter (fun f => pyEndsWith f ".tf") with _ | ⟨a, l⟩
    · rw [hfe] at hmemf
      cases hmemf
    · rfl
  unfold validate_directory
  simp only [hne, Bool.false_eq_true, if_false]
  rcases h1 : run_terraform_fmt env directory with ⟨b1, t1⟩
  rcases h2 : run_terraform_init env directory with ⟨b2, t2⟩
  rcases h3 : run_terraform_validate env directory with ⟨b3, t3⟩
  rcases h4 : run_terraform_plan env directory with ⟨b4, t4⟩
  rw [foldl_step_fst]
  simp

/-- Witness for C7 at a concrete two-level directory. -/
theorem c7_witness :
    (validate_directory envA "/proj"
        [Entry.file "main.tf", Entry.dir "modules" [Entry.file "vpc.tf"]]).1 =
      (walkTf "/proj" [Entry.file "main.tf", Entry.dir "modules" [Entry.file "vpc.tf"]]).map
        (fun p => (validate_file envA "/proj" p).1) :=
  c7_one_result_per_walked_file envA "/proj"
    [Entry.file "main.tf", Entry.dir "modules" [Entry.file "vpc.tf"]]
    ⟨"main.tf", List.mem_cons_self _ _, by decide⟩

/-- C5: classification of module sources by scheme.  A module whose
nonempty source has an empty scheme is resolved against the directory
under validation with `os.path.join` and checked on the filesystem,
producing the local-path issue exactly when the resolved path does not
exist; a module with no source attribute is skipped with no issue and no
check; any other scheme (besides `http`/`https`) produces no check and no
issue.  The last two conjuncts place the per-module behaviour inside the
module loop: the loop distributes over concatenation and the singleton
loop is exactly the per-module step. -/
theorem c5_source_classification (env : Env) (directory module_name : String)
    (attrs : List (String × Value)) :
    (∀ src, List.lookup "source" attrs = some (.str src) → src ≠ "" →
      urlscheme src = "" →
      processModule env directory module_name (.map attrs) =
        (.ok (if env.pathExists (joinPath directory src) = true then []
              else ["Module " ++ module_name ++ ": Local source path does not exist " ++ src]),
         ⟨[], [], [joinPath directory src]⟩))
    ∧ (List.lookup "source" attrs = none →
        processModule env directory module_name (.map attrs) = (.ok [], Trace.empty))
    ∧ (∀ src, List.lookup "source" attrs = some (.str src) →
        urlscheme src ≠ "" → urlscheme src ≠ "http" → urlscheme src ≠ "https" →
        processModule env directory module_name (.map attrs) = (.ok [], Trace.empty))
    ∧ (∀ mods mods₂, checkModulesLoop env directory (mods ++ mods₂) =
        seqIssues (checkModulesLoop env directory mods) (checkModulesLoop env directory mods₂))
    ∧ (∀ name config, checkModulesLoop env directory [(name, config)] =
        processModule env directory name config) := by
  refine ⟨?_, ?_, ?_, checkModulesLoop_append env directory,
    checkModulesLoop_singleton env directory⟩
  · intro src hs hne hsch
    by_cases hp : env.pathExists (joinPath directory src) = true <;>
      simp [processModule, hs, pyTruthy, hne, hsch, hp]
  · intro hs
    simp [processModule, hs]
  · intro src hs h0 hh hhs
    have hne : src ≠ "" := by
      intro hz
      subst hz
      exact h0 rfl
    simp [processModule, hs, pyTruthy, hne, h0, hh, hhs]

/-- Witness for C5: a local module source `./missing` under `/proj` with
an absent path yields exactly the local-path issue and one existence
check. -/
theorem c5_witness :
    processModule { envA with pathExists := fun _ => false } "/proj" "vpc"
        (.map [("source", .str "./missing")]) =
      (.ok ["Module vpc: Local source path does not exist ./missing"],
       ⟨[], [], [joinPath "/proj" "./missing"]⟩) := by
  have h := (c5_source_classification { envA with pathExists := fun _ => false }
    "/proj" "vpc" [("source", .str "./missing")]).1 "./missing" rfl (by decide) (by decide)
  rw [h]
  rfl

/-- C10: a module whose `source` attribute is present but equal to the
empty string is skipped by `check_module_sources` — no issue is emitted
and no filesystem existence check is performed — because Python's `if
source:` treats the empty string as falsy; removing such a module from
the module mapping leaves the checker's output unchanged. -/
theorem c10_empty_source_skipped (env : Env) (directory module_name : String)
    (attrs : List (String × Value)) (pre post : List (String × Value))
    (h : List.lookup "source" attrs = some (.str "")) :
    processModule env directory module_name (.map attrs) = (.ok [], Trace.empty)
    ∧ checkModulesLoop env directory (pre ++ (module_name, Value.map attrs) :: post) =
        checkModulesLoop env directory (pre ++ post) := by
  have hm : processModule env directory module_name (.map attrs) = (.ok [], Trace.empty) := by
    simp [processModule, h, pyTruthy]
  refine ⟨hm, ?_⟩
  have hcons : checkModulesLoop env directory ((module_name, Value.map attrs) :: post) =
      checkModulesLoop env directory post := by
    simp only [checkModulesLoop, hm]
    rcases hpost : checkModulesLoop env directory post with ⟨e | is, t⟩ <;>
      simp [Trace.empty_append]
  rw [checkModulesLoop_append, hcons, ← checkModulesLoop_append]

/-- Witness for C10 at a concrete module with an empty source string. -/
theorem c10_witness :
    processModule envA "/proj" "blank" (.map [("source", .str "")]) = (.ok [], Trace.empty)
    ∧ checkModulesLoop envA "/proj"
        ([] ++ ("blank", Value.map [("source", .str "")]) :: []) =
        checkModulesLoop envA "/proj" ([] ++ []) :=
  c10_empty_source_skipped envA "/proj" "blank" [("source", .str "")] [] [] rfl

theorem plainStr_append (a b : String) :
    plainStr (a ++ b) = (plainStr a && plainStr b) := by
  unfold plainStr
  rw [String.data_append, List.all_append]

/-- C2: a module under the "module" section whose source has scheme
`http`/`https` and whose probe fails (status ≥ 400 or transport error)
contributes, through `check_module_sources`, exactly one issue entry of
`validate_file`'s result referencing the per-module text
`Module <name>: Unreachable source URL <source>`; a probe status < 400
contributes no issue for that module (the checker's issue list is the one
obtained with the module removed). -/
theorem c2_remote_unreachable (env : Env) (directory file_path : String)
    (parser_data : List (String × Value)) (pre post : List (String × Value))
    (module_name : String) (attrs : List (String × Value)) (src : String)
    (ispre ispost : List String) (tpre tpost : Trace)
    (hparse : env.parseFile file_path = .ok parser_data)
    (hmodule : List.lookup "module" parser_data =
        some (.map (pre ++ (module_name, Value.map attrs) :: post)))
    (hsource : List.lookup "source" attrs = some (.str src))
    (hscheme : urlscheme src = "http" ∨ urlscheme src = "https")
    (hplainn : plainStr module_name = true) (hplains : plainStr src = true)
    (hpre : checkModulesLoop env directory pre = (.ok ispre, tpre))
    (hpost : checkModulesLoop env directory post = (.ok ispost, tpost)) :
    (probeFailed (env.probe src) →
      (validate_file env directory file_path).1.issues.countP
        (fun issue =>
          decide (mentions
            ("Module " ++ module_name ++ ": Unreachable source URL " ++ src) issue)) = 1)
    ∧ (∀ code, env.probe src = .status code → code < 400 →
        (checkModulesLoop env directory
          (pre ++ (module_name, Value.map attrs) :: post)).1 = .ok (ispre ++ ispost)) := by
  have hne : src ≠ "" := by
    intro hz
    rw [hz] at hscheme
    rcases hscheme with h | h <;> exact absurd h (by decide)
  constructor
  · intro hfail
    have hm : processModule env directory module_name (.map attrs) =
        (.ok ["Module " ++ module_name ++ ": Unreachable source URL " ++ src],
         ⟨[], [src], []⟩) := by
      unfold processModule
      rcases hpr : env.probe src with code | m
      · have hf : 400 ≤ code := by
          rw [hpr] at hfail
          exact hfail
        rcases hscheme with h | h <;> simp [hsource, pyTruthy, hne, h, hpr, hf]
      · rcases hscheme with h | h <;> simp [hsource, pyTruthy, hne, h, hpr]
    have hloop : checkModulesLoop env directory
        (pre ++ (module_name, Value.map attrs) :: post) =
        (.ok (ispre ++
            ("Module " ++ module_name ++ ": Unreachable source URL " ++ src) :: ispost),
         tpre ++ ((⟨[], [src], []⟩ : Trace) ++ tpost)) := by
      rw [checkModulesLoop_append, hpre]
      simp only [checkModulesLoop, hm, hpost, seqIssues]
      simp
    have hcms : check_module_sources env directory parser_data =
        (.ok (ispre ++
            ("Module " ++ module_name ++ ": Unreachable source URL " ++ src) :: ispost),
         tpre ++ ((⟨[], [src], []⟩ : Trace) ++ tpost)) := by
      unfold check_module_sources
      rw [hmodule]
      exact hloop
    have hplT : plainStr
        ("Module " ++ module_name ++ ": Unreachable source URL " ++ src) = true := by
      rw [plainStr_append, plainStr_append, plainStr_append, hplainn, hplains]
      decide
    have hmemT : ("Module " ++ module_name ++ ": Unreachable source URL " ++ src) ∈
        ispre ++ ("Module " ++ module_name ++ ": Unreachable source URL " ++ src) :: ispost :=
      List.mem_append_right ispre (List.mem_cons_self _ _)
    have hmen : mentions
        ("Module " ++ module_name ++ ": Unreachable source URL " ++ src)
        ("Invalid or unreachable module sources found: " ++
          pyListStr (ispre ++
            ("Module " ++ module_name ++ ": Unreachable source URL " ++ src) :: ispost)) :=
      mentions_pyListStr _ hmemT hplT
    have hiss : (ispre ++
        ("Module " ++ module_name ++ ": Unreachable source URL " ++ src) :: ispost).isEmpty
          = false := by
      cases ispre <;> rfl
    unfold validate_file parse_terraform_file
    rw [hparse]
    simp only [hcms, hiss, Bool.false_eq_true, if_false,
      check_url_reachability, extract_urls, checkUrlsLoop]
    simp [hmen]
  · intro code hpr hlt
    have hm2 : processModule env directory module_name (.map attrs) =
        (.ok [], ⟨[], [src], []⟩) := by
      unfold processModule
      rcases hscheme with h | h <;>
        simp [hsource, pyTruthy, hne, h, hpr, show ¬ (400 ≤ code) from by omega]
    rw [checkModulesLoop_append, hpre]
    simp only [checkModulesLoop, hm2, hpost, seqIssues]
    simp

/-- Witness for C2: the 404 probe produces exactly one issue entry
mentioning the per-module text. -/
theorem c2_witness :
    (validate_file envC2 "/proj" "/proj/main.tf").1.issues.countP
      (fun issue =>
        decide (mentions
          ("Module " ++ "web" ++ ": Unreachable source URL " ++ "https://example.invalid/mod")
          issue)) = 1 :=
  (c2_remote_unreachable envC2 "/proj" "/proj/main.tf"
    [("module", Value.map
      [("web", Value.map [("source", Value.str "https://example.invalid/mod")])])]
    [] [] "web" [("source", Value.str "https://example.invalid/mod")]
    "https://example.invalid/mod" [] [] Trace.empty Trace.empty
    rfl rfl rfl (Or.inr (by decide)) (by decide) (by decide) rfl rfl).1
    (show (400 : Nat) ≤ 404 by decide)

/-- Counterexample for C8 as stated: a configuration embedding the
URL-shaped string `https://example.com/api` at nesting depth three, on
which the spec-described extractor finds the URL while the source's
`extract_urls` returns the empty sequence. -/
theorem c8_counterexample :
    "https://example.com/api" ∈ specExtractUrls
      [("resource", Value.map
        [("api", Value.map [("endpoint", Value.str "https://example.com/api")])])]
    ∧ extract_urls
      [("resource", Value.map
        [("api", Value.map [("endpoint", Value.str "https://example.com/api")])])] = [] := by
  constructor
  · simp only [specExtractUrls, specCollectUrlsMap, specCollectUrls, specCollectUrlsSeq]
    simp only [show urlShaped "https://example.com/api" = true from by decide]
    simp
  · rfl

/-- C8 (amended): the source's URL Extractor is a stub — it returns the
empty sequence for every ParsedConfig, so the URL reachability check
collects nothing and probes nothing. -/
theorem c8_extractor_is_stub (env : Env) (parser_data : ParsedConfig) :
    extract_urls parser_data = []
    ∧ check_url_reachability env parser_data = ([], Trace.empty) :=
  ⟨rfl, rfl⟩
